import Mathlib

/-!
Shallow embedding of the message-io network engine core (the WebSocket
adapter `src/adapters/ws.rs`, the engine `src/engine.rs`, and
`src/network/endpoint.rs`), with the external transport crate (tungstenite)
scripted at its interface boundary: each call the adapter makes into the
crate consumes the next scripted outcome.  Panics in the source (`panic!`,
`unwrap`, `assert!`, out-of-bounds `Vec` index) are modelled as `Option.none`
or a dedicated outcome constructor.
-/

namespace MessageIo

/-- A binary payload: a list of bytes. -/
abbrev Data := List Nat

/-- A socket address, kept abstract as an (ip, port) pair. -/
structure SockAddr where
  ip : Nat
  port : Nat
deriving DecidableEq

/-- The `std::io::ErrorKind` values the adapter code inspects, plus a
catch-all for every other kind. -/
inductive IOErrorKind
  | wouldBlock
  | connectionReset
  | interrupted
  | otherKind
deriving DecidableEq

/-- Modelled from the spec (glossary): outcome of a single drain cycle of
`receive`, either `WaitNextEvent` or `Disconnected`.  The defining file
`network/adapter.rs` is not under `src/`. -/
inductive ReadStatus
  | disconnected
  | waitNextEvent
deriving DecidableEq

/-- Modelled from the spec (glossary, §6): outcome of a send.  The defining
file `network/adapter.rs` is not under `src/`.  (`ResourceNotAvailable` is
issued by layers outside the adapter and is not needed here.) -/
inductive SendStatus
  | sent
  | maxPacketSizeExceeded (size : Nat) (maxAllowed : Nat)
  | resourceNotFound
deriving DecidableEq

/-- Max message size for the default config (`ws.rs`): `32 << 20` bytes. -/
def MAX_PAYLOAD_LEN : Nat := 32 <<< 20

/-- Scripted outcome of one `WebSocket::read_message` call on an established
socket, together with the outcome of the zero-byte `peek` the adapter runs
after a successful binary message (`none` = the peek succeeded).  `otherMsg`
stands for any non-binary, non-close message (the `_ => continue` arm);
`wsErr` stands for a non-`Error::Io` tungstenite error. -/
inductive ReadEvent
  | binaryMsg (d : Data) (peekErr : Option IOErrorKind)
  | closeMsg
  | otherMsg
  | ioErr (k : IOErrorKind)
  | wsErr
deriving DecidableEq

/-- Scripted transient/fatal outcomes of the write path: each attempt that
does not immediately succeed consumes one entry.  `blockAgain` is an
`Error::Io` of kind `WouldBlock` (retried via `write_pending`), `fatal` any
other write error. -/
inductive WriteStep
  | blockAgain
  | fatal
deriving DecidableEq

/-- Model of a tungstenite `WebSocket<TcpStream>` in the established state.
`reads` scripts the outcomes of successive `read_message` calls,
`writeScript` scripts the non-success write outcomes, and `sent` accumulates
the binary messages successfully written to the socket, in order.  Modelled
at the interface boundary of the external crate, per the spec (§1: concrete
transport crates are collaborators specified at their interface). -/
structure WsSocket where
  reads : List ReadEvent
  writeScript : List WriteStep
  sent : List Data
deriving DecidableEq

/-- A tungstenite `MidHandshake`: calling `handshake()` either completes
with an established socket, is interrupted again (leaving a new
`MidHandshake` to resume later), or fails. -/
inductive MidHandshake
  | completed (sock : WsSocket)
  | interrupted (next : MidHandshake)
  | failed
deriving DecidableEq

/-- `PendingHandshake` of `ws.rs`: the resumable server handshake plus the
payloads queued by `send` before the handshake completed. -/
structure PendingHandshake where
  midHandshake : MidHandshake
  pendingMessages : List Data
deriving DecidableEq

/-- `RemoteState` of `ws.rs`.  The Rust `Option` inside `Handshake` is the
`take`/replace device of `receive`; `none` outside a `receive` call marks
the taken-and-not-restored state (reached when the resumed handshake
fails). -/
inductive RemoteState
  | webSocket (sock : WsSocket)
  | handshake (pending : Option PendingHandshake)
deriving DecidableEq

/-- Actions on the per-resource `Mutex<RemoteState>` recorded by the
embedding of `receive`: lock acquisitions, lock releases, and invocations of
the `process_data` user callback with a decoded payload. -/
inductive LockAction
  | acquire
  | release
  | callback (d : Data)
deriving DecidableEq

/-- `RemoteResource::io_error_to_read_status`: `WouldBlock` maps to
`WaitNextEvent`; `ConnectionReset` and every other kind map to
`Disconnected`. -/
def ioErrorToReadStatus (k : IOErrorKind) : ReadStatus :=
  if k = IOErrorKind.wouldBlock then ReadStatus.waitNextEvent
  else if k = IOErrorKind.connectionReset then ReadStatus.disconnected
  else ReadStatus.disconnected

/-- The retry loop inside `send_by_socket`: consume scripted `WouldBlock`
results (each followed by a `write_pending` retry) until the write succeeds
(`true`) or a non-`WouldBlock` error stops it (`false`).  An exhausted
script means the write succeeds. -/
def writeFlush : List WriteStep → Bool × List WriteStep
  | [] => (true, [])
  | WriteStep.blockAgain :: rest => writeFlush rest
  | WriteStep.fatal :: rest => (false, rest)

/-- `RemoteResource::send_by_socket`.  tungstenite's `write_message` returns
`Error::Capacity` when the payload exceeds the configured maximum
(`MAX_PAYLOAD_LEN` under the default config, per the spec §6), mapped to
`MaxPacketSizeExceeded(data.len(), MAX_PAYLOAD_LEN)`; `WouldBlock` is
retried via `write_pending`; any other error maps to `ResourceNotFound`. -/
def sendBySocket (sock : WsSocket) (data : Data) : SendStatus × WsSocket :=
  if data.length > MAX_PAYLOAD_LEN then
    (SendStatus.maxPacketSizeExceeded data.length MAX_PAYLOAD_LEN, sock)
  else
    match writeFlush sock.writeScript with
    | (true, rest) =>
      (SendStatus.sent, { sock with writeScript := rest, sent := sock.sent ++ [data] })
    | (false, rest) =>
      (SendStatus.resourceNotFound, { sock with writeScript := rest })

/-- The `for pending_data in current_handshake.pending_messages` loop run
when `receive` completes the handshake: each queued payload is written via
`send_by_socket`, front to back, statuses discarded. -/
def flushPending : WsSocket → List Data → WsSocket
  | sock, [] => sock
  | sock, d :: ds => flushPending (sendBySocket sock d).2 ds

/-- Result of one `receive` drain cycle on an established socket: the lock
trace, the returned status (`none` when the read script is exhausted, a
model artifact: a real nonblocking socket eventually yields `WouldBlock`),
and the unread remainder of the script. -/
structure EstReceive where
  trace : List LockAction
  status : Option ReadStatus
  restReads : List ReadEvent
deriving DecidableEq

/-- The established-state loop of `RemoteResource::receive`.  Every
iteration locks the state; on a binary message the adapter peeks, releases
the lock (`drop(state)`), invokes `process_data`, then breaks with the
classified peek error if the peek failed, else continues; `Close` breaks
`Disconnected`; other messages continue; an `Error::Io` breaks with the
classified kind; any other error breaks `Disconnected`. -/
def receiveEst : List ReadEvent → EstReceive
  | [] => ⟨[], none, []⟩
  | ReadEvent.binaryMsg d none :: rest =>
    let r := receiveEst rest
    ⟨LockAction.acquire :: LockAction.release :: LockAction.callback d :: r.trace,
     r.status, r.restReads⟩
  | ReadEvent.binaryMsg d (some k) :: rest =>
    ⟨[LockAction.acquire, LockAction.release, LockAction.callback d],
     some (ioErrorToReadStatus k), rest⟩
  | ReadEvent.closeMsg :: rest =>
    ⟨[LockAction.acquire, LockAction.release], some ReadStatus.disconnected, rest⟩
  | ReadEvent.otherMsg :: rest =>
    let r := receiveEst rest
    ⟨LockAction.acquire :: LockAction.release :: r.trace, r.status, r.restReads⟩
  | ReadEvent.ioErr k :: rest =>
    ⟨[LockAction.acquire, LockAction.release], some (ioErrorToReadStatus k), rest⟩
  | ReadEvent.wsErr :: rest =>
    ⟨[LockAction.acquire, LockAction.release], some ReadStatus.disconnected, rest⟩

/-- Result of `RemoteResource::receive`: lock trace, returned `ReadStatus`
(`none` also covers the unreachable panic path), and the state left in the
mutex. -/
structure ReceiveResult where
  trace : List LockAction
  status : Option ReadStatus
  state : RemoteState
deriving DecidableEq

/-- `RemoteResource::receive`.  In the handshake branch the pending
handshake is taken; on completion every queued payload is flushed in FIFO
order and the loop continues in the established state; on interruption the
handshake is restored (with the same queue) and `WaitNextEvent` is
returned; on failure `Disconnected` is returned and the taken handshake is
not restored.  The `Handshake(None)` entry models the source's
`unwrap` panic path (unreachable under the engine's state invariant). -/
def receive : RemoteState → ReceiveResult
  | RemoteState.webSocket sock =>
    let r := receiveEst sock.reads
    ⟨r.trace, r.status, RemoteState.webSocket { sock with reads := r.restReads }⟩
  | RemoteState.handshake none =>
    ⟨[LockAction.acquire], none, RemoteState.handshake none⟩
  | RemoteState.handshake (some ph) =>
    match ph.midHandshake with
    | MidHandshake.completed sock =>
      let sock' := flushPending sock ph.pendingMessages
      let r := receiveEst sock'.reads
      ⟨LockAction.acquire :: LockAction.release :: r.trace, r.status,
       RemoteState.webSocket { sock' with reads := r.restReads }⟩
    | MidHandshake.interrupted next =>
      ⟨[LockAction.acquire, LockAction.release], some ReadStatus.waitNextEvent,
       RemoteState.handshake (some ⟨next, ph.pendingMessages⟩)⟩
    | MidHandshake.failed =>
      ⟨[LockAction.acquire, LockAction.release], some ReadStatus.disconnected,
       RemoteState.handshake none⟩

/-- `RemoteResource::send`: established sends go through `send_by_socket`;
in the handshake state the payload is pushed to the back of
`pending_messages` and `Sent` is returned.  `none` models the `unwrap`
panic on a taken handshake (unreachable under the engine invariant). -/
def send : RemoteState → Data → Option (SendStatus × RemoteState)
  | RemoteState.webSocket sock, data =>
    let r := sendBySocket sock data
    some (r.1, RemoteState.webSocket r.2)
  | RemoteState.handshake (some ph), data =>
    some (SendStatus.sent,
      RemoteState.handshake (some ⟨ph.midHandshake, ph.pendingMessages ++ [data]⟩))
  | RemoteState.handshake none, _ => none

/-- Outcome of `RemoteResource::connect`: a connected resource with its
local and peer addresses, a typed `io::Error` returned to the caller, or
the `panic!` branch. -/
inductive ConnectOutcome
  | connOk (state : RemoteState) (localAddr : SockAddr) (peerAddr : SockAddr)
  | connErr (k : IOErrorKind)
  | panicked
deriving DecidableEq

/-- Environment scripting the collaborator calls made by
`RemoteResource::connect` for a `RemoteAddr::Socket` address:
`StdTcpStream::connect`, `local_addr`, `set_nonblocking`, and the
`ws_connect` client handshake (with its synchronous resumption loop). -/
structure ConnectEnv where
  peerAddr : SockAddr
  tcpConnect : Except IOErrorKind Unit
  localAddr : Except IOErrorKind SockAddr
  setNonblocking : Except IOErrorKind Unit
  handshake : MidHandshake

/-- The synchronous retry loop of `connect`: `Interrupted` results are
resumed until the handshake completes (`ok`) or fails (`error`). -/
def connectHandshakeLoop : MidHandshake → Except Unit WsSocket
  | MidHandshake.completed sock => Except.ok sock
  | MidHandshake.interrupted next => connectHandshakeLoop next
  | MidHandshake.failed => Except.error ()

/-- `RemoteResource::connect`: the three I/O steps propagate their error to
the caller with `?`; a completed handshake yields the established resource;
`HandshakeError::Failure` hits the source's `panic!` branch. -/
def connect (env : ConnectEnv) : ConnectOutcome :=
  match env.tcpConnect with
  | Except.error k => ConnectOutcome.connErr k
  | Except.ok () =>
    match env.localAddr with
    | Except.error k => ConnectOutcome.connErr k
    | Except.ok la =>
      match env.setNonblocking with
      | Except.error k => ConnectOutcome.connErr k
      | Except.ok () =>
        match connectHandshakeLoop env.handshake with
        | Except.ok sock =>
          ConnectOutcome.connOk (RemoteState.webSocket sock) la env.peerAddr
        | Except.error () => ConnectOutcome.panicked

/-- Modelled from the spec (§3): the `resource_type` bit of a `ResourceId`.
The defining file `network/resource_id.rs` is not under `src/`.  (`local`
is a Lean keyword, hence the suffixed names.) -/
inductive ResourceType
  | localRes
  | remoteRes
deriving DecidableEq

/-- Modelled from the spec (§3): a `ResourceId` carries an 8-bit adapter id,
a resource-type bit and a 23-bit serial.  The defining file
`network/resource_id.rs` is not under `src/`. -/
structure ResourceId where
  adapterId : Nat
  resourceType : ResourceType
  serial : Nat
deriving DecidableEq

/-- `Endpoint` of `network/endpoint.rs`: a resource id plus the peer
address. -/
structure Endpoint where
  resourceId : ResourceId
  addr : SockAddr
deriving DecidableEq

/-- `Endpoint::from_listener`.  The source asserts
`id.resource_type() == ResourceType::Local` and
`!Transport::from(id.adapter_id()).is_connection_oriented()` and then
builds the endpoint; `none` models the `assert!` abort.  The adapter table
`Transport::from` lives in `network/transport.rs`, which is not under
`src/`; its connection-orientation predicate is passed in as
`connOriented`. -/
def fromListener (connOriented : Nat → Bool) (id : ResourceId) (addr : SockAddr) :
    Option Endpoint :=
  if id.resourceType = ResourceType.localRes ∧ connOriented id.adapterId = false then
    some ⟨id, addr⟩
  else none

/-- `AdapterLauncher` of `engine.rs`, keeping only the two slot vectors the
claim concerns (`α` stands for the boxed `ActionController` trait objects,
`β` for the boxed `EventProcessor` ones; the poll registers built by
`mount` live in `driver.rs`/`poll.rs`, which are not under `src/`). -/
structure AdapterLauncher (α β : Type) where
  controllers : List α
  processors : List β

/-- `AdapterLauncher::default`: both vectors start **empty** — the code
pre-filling them with `UnimplementedController`/`UnimplementedProcessor`
placeholders up to `ADAPTER_ID_MAX` is commented out in the source. -/
def AdapterLauncher.emptyDefault (α β : Type) : AdapterLauncher α β := ⟨[], []⟩

/-- Rust's `vec[index] = value`: writes in place when `index < len`, panics
(`none`) otherwise — assignment never grows the vector. -/
def setSlot : List α → Nat → α → Option (List α)
  | [], _, _ => none
  | _ :: xs, 0, a => some (a :: xs)
  | x :: xs, n + 1, a => Option.map (fun ys => x :: ys) (setSlot xs n a)

/-- `AdapterLauncher::mount`: splits the adapter into a controller and a
processor and stores them with `self.controllers[index] = ...` and
`self.processors[index] = ...`; `none` models the index-out-of-bounds
panic. -/
def mount (l : AdapterLauncher α β) (adapterId : Nat) (controller : α) (processor : β) :
    Option (AdapterLauncher α β) :=
  match setSlot l.controllers adapterId controller with
  | none => none
  | some cs =>
    match setSlot l.processors adapterId processor with
    | none => none
    | some ps => some ⟨cs, ps⟩

/-- Scripted outcome of `ws_accept` on one accepted stream: an immediately
established socket, an interrupted (resumable) server handshake, or a
handshake failure. -/
inductive AcceptHandshake
  | wsOk (sock : WsSocket)
  | wsInterrupted (mid : MidHandshake)
  | wsFailed
deriving DecidableEq

/-- Scripted outcome of one OS `listener.accept()` call. -/
inductive AcceptEvent
  | incoming (addr : SockAddr) (hs : AcceptHandshake)
  | wouldBlock
  | interrupted
  | fatalErr
deriving DecidableEq

/-- `LocalResource::accept`: drains the scripted accept queue.  A stream
whose handshake completes or is interrupted is yielded (as
`AcceptedType::Remote(addr, remote)`) with the corresponding remote state;
a failed handshake yields nothing and the loop continues; `WouldBlock`
breaks; `Interrupted` continues (retry); any other error breaks after
logging.  The result lists the yielded remotes in order.  An exhausted
script is a model artifact (a real queue ends in `WouldBlock`). -/
def accept : List AcceptEvent → List (SockAddr × RemoteState)
  | [] => []
  | AcceptEvent.incoming addr (AcceptHandshake.wsOk sock) :: rest =>
    (addr, RemoteState.webSocket sock) :: accept rest
  | AcceptEvent.incoming addr (AcceptHandshake.wsInterrupted mid) :: rest =>
    (addr, RemoteState.handshake (some ⟨mid, []⟩)) :: accept rest
  | AcceptEvent.incoming _ AcceptHandshake.wsFailed :: rest => accept rest
  | AcceptEvent.wouldBlock :: _ => []
  | AcceptEvent.interrupted :: rest => accept rest
  | AcceptEvent.fatalErr :: _ => []

/-- Accept-loop events that terminate the drain: `WouldBlock` and fatal
accept errors. -/
def isStop : AcceptEvent → Bool
  | AcceptEvent.wouldBlock => true
  | AcceptEvent.fatalErr => true
  | _ => false

/-- What a single accept-loop event contributes to the `accept_remote`
callback: a remote for a stream whose handshake did not immediately fail,
nothing otherwise. -/
def acceptYield : AcceptEvent → Option (SockAddr × RemoteState)
  | AcceptEvent.incoming addr (AcceptHandshake.wsOk sock) =>
    some (addr, RemoteState.webSocket sock)
  | AcceptEvent.incoming addr (AcceptHandshake.wsInterrupted mid) =>
    some (addr, RemoteState.handshake (some ⟨mid, []⟩))
  | _ => none

/-- The status with which a single scripted read event terminates the
established receive loop (`none` = the loop continues past it). -/
def readTerm : ReadEvent → Option ReadStatus
  | ReadEvent.binaryMsg _ none => none
  | ReadEvent.binaryMsg _ (some k) => some (ioErrorToReadStatus k)
  | ReadEvent.closeMsg => some ReadStatus.disconnected
  | ReadEvent.otherMsg => none
  | ReadEvent.ioErr k => some (ioErrorToReadStatus k)
  | ReadEvent.wsErr => some ReadStatus.disconnected

/-- Checks, scanning a lock trace at a given lock depth, that every
`process_data` callback happens while the lock is released (depth 0). -/
def callbacksUnlocked : Nat → List LockAction → Bool
  | _, [] => true
  | d, LockAction.acquire :: r => callbacksUnlocked (d + 1) r
  | d, LockAction.release :: r => callbacksUnlocked (d - 1) r
  | d, LockAction.callback _ :: r => (d == 0) && callbacksUnlocked d r

/-- The status of the first read event that terminates the drain loop
(`none` when no scripted event terminates it). -/
def firstStopStatus : List ReadEvent → Option ReadStatus
  | [] => none
  | e :: rest =>
    match readTerm e with
    | some s => some s
    | none => firstStopStatus rest

/-- The queued payloads the handshake-completion flush actually writes to
the socket, given the pending write script: an oversize payload is rejected
with `Error::Capacity` and, because the flush loop discards every
`send_by_socket` status, silently dropped; a payload whose write fails
fatally is likewise dropped; the rest are written in queue order. -/
def flushKept : List WriteStep → List Data → List Data
  | _, [] => []
  | ws, d :: ds =>
    if d.length > MAX_PAYLOAD_LEN then flushKept ws ds
    else
      match writeFlush ws with
      | (true, rest) => d :: flushKept rest ds
      | (false, rest) => flushKept rest ds

theorem receiveEst_status (reads : List ReadEvent) :
    (receiveEst reads).status = firstStopStatus reads := by
  induction reads with
  | nil => rfl
  | cons e rest ih =>
    cases e with
    | binaryMsg d pk =>
      cases pk with
      | none => simpa [receiveEst, firstStopStatus, readTerm] using ih
      | some k => rfl
    | closeMsg => rfl
    | otherMsg => simpa [receiveEst, firstStopStatus, readTerm] using ih
    | ioErr k => rfl
    | wsErr => rfl

theorem callbacksUnlocked_receiveEst (reads : List ReadEvent) :
    callbacksUnlocked 0 (receiveEst reads).trace = true := by
  induction reads with
  | nil => rfl
  | cons e rest ih =>
    cases e with
    | binaryMsg d pk =>
      cases pk with
      | none => simpa [receiveEst, callbacksUnlocked] using ih
      | some k => rfl
    | closeMsg => rfl
    | otherMsg => simpa [receiveEst, callbacksUnlocked] using ih
    | ioErr k => rfl
    | wsErr => rfl

theorem flushPending_sent (ps : List Data) (sock : WsSocket) :
    (flushPending sock ps).sent = sock.sent ++ flushKept sock.writeScript ps := by
  induction ps generalizing sock with
  | nil => simp [flushPending, flushKept]
  | cons d ds ih =>
    obtain ⟨reads, ws, sentAcc⟩ := sock
    by_cases hd : d.length > MAX_PAYLOAD_LEN
    · simp [flushPending, sendBySocket, hd, flushKept, ih]
    · rcases hwf : writeFlush ws with ⟨b, rest⟩
      cases b
      · simp [flushPending, sendBySocket, hd, flushKept, hwf, ih]
      · simp [flushPending, sendBySocket, hd, flushKept, hwf, ih]

theorem flushKept_sublist (ps : List Data) (ws : List WriteStep) :
    List.Sublist (flushKept ws ps) ps := by
  induction ps generalizing ws with
  | nil => simp [flushKept]
  | cons d ds ih =>
    by_cases hd : d.length > MAX_PAYLOAD_LEN
    · simp only [flushKept, if_pos hd]
      exact List.Sublist.cons d (ih ws)
    · simp only [flushKept, if_neg hd]
      rcases hwf : writeFlush ws with ⟨b, rest⟩
      cases b
      · exact List.Sublist.cons d (ih rest)
      · exact List.Sublist.cons₂ d (ih rest)

theorem flushKept_all (ps : List Data)
    (hs : ∀ x ∈ ps, x.length ≤ MAX_PAYLOAD_LEN) :
    flushKept [] ps = ps := by
  induction ps with
  | nil => rfl
  | cons d ds ih =>
    have hd : ¬ d.length > MAX_PAYLOAD_LEN :=
      Nat.not_lt.mpr (hs d (List.mem_cons_self d ds))
    simp [flushKept, hd, writeFlush,
      ih (fun x hx => hs x (List.mem_cons_of_mem d hx))]

/-- Claim C1, counterexample: at a connect attempt whose TCP steps succeed
but whose WebSocket handshake fails, `Remote::connect` hits the `panic!`
branch and does not return a typed I/O error, refuting the claim that every
connect/handshake I/O failure is returned as a typed error without
panicking. -/
theorem c1_counterexample :
    connect ⟨⟨7, 80⟩, Except.ok (), Except.ok ⟨7, 81⟩, Except.ok (),
             MidHandshake.failed⟩
      = ConnectOutcome.panicked
  ∧ ∀ k, connect ⟨⟨7, 80⟩, Except.ok (), Except.ok ⟨7, 81⟩, Except.ok (),
             MidHandshake.failed⟩
      ≠ ConnectOutcome.connErr k := by
  refine ⟨rfl, ?_⟩
  intro k h
  exact ConnectOutcome.noConfusion h

/-- Claim C1, amended: a failure of the TCP connect, of the local-address
query, or of `set_nonblocking` makes `Remote::connect` return that typed
I/O error to the caller (and no resource is constructed), but a failure of
the WebSocket handshake itself panics instead of returning an error. -/
theorem c1_amended_connect_errors (env : ConnectEnv) (k : IOErrorKind) (la : SockAddr) :
    (env.tcpConnect = Except.error k → connect env = ConnectOutcome.connErr k)
  ∧ (env.tcpConnect = Except.ok () → env.localAddr = Except.error k →
       connect env = ConnectOutcome.connErr k)
  ∧ (env.tcpConnect = Except.ok () → env.localAddr = Except.ok la →
       env.setNonblocking = Except.error k → connect env = ConnectOutcome.connErr k)
  ∧ (env.tcpConnect = Except.ok () → env.localAddr = Except.ok la →
       env.setNonblocking = Except.ok () →
       connectHandshakeLoop env.handshake = Except.error () →
       connect env = ConnectOutcome.panicked) := by
  obtain ⟨pa, tc, lad, snb, hsk⟩ := env
  refine ⟨?_, ?_, ?_, ?_⟩
  · intro h1
    obtain rfl : tc = Except.error k := h1
    rfl
  · intro h1 h2
    obtain rfl : tc = Except.ok () := h1
    obtain rfl : lad = Except.error k := h2
    rfl
  · intro h1 h2 h3
    obtain rfl : tc = Except.ok () := h1
    obtain rfl : lad = Except.ok la := h2
    obtain rfl : snb = Except.error k := h3
    rfl
  · intro h1 h2 h3 h4
    obtain rfl : tc = Except.ok () := h1
    obtain rfl : lad = Except.ok la := h2
    obtain rfl : snb = Except.ok () := h3
    simp only [connect]
    rw [show connectHandshakeLoop hsk = Except.error () from h4]

/-- Claim C1, witness: a connect attempt whose TCP connect step fails with
`ConnectionReset` returns exactly that typed error. -/
theorem c1_amended_witness :
    connect ⟨⟨1, 2⟩, Except.error IOErrorKind.connectionReset, Except.ok ⟨1, 3⟩,
             Except.ok (), MidHandshake.failed⟩
      = ConnectOutcome.connErr IOErrorKind.connectionReset :=
  (c1_amended_connect_errors
    ⟨⟨1, 2⟩, Except.error IOErrorKind.connectionReset, Except.ok ⟨1, 3⟩,
     Except.ok (), MidHandshake.failed⟩
    IOErrorKind.connectionReset ⟨1, 3⟩).1 rfl

/-- Claim C2: on a launcher built by `AdapterLauncher::default`, `mount`
aborts (index out of bounds) for every adapter id, because the controller
and processor vectors are initialized empty (the placeholder pre-fill is
commented out) and `vec[index] = value` never grows a vector — so `mount`
never stores any adapter. -/
theorem c2_mount_on_default_aborts (n : Nat) (c p : Nat) :
    mount (AdapterLauncher.emptyDefault Nat Nat) n c p = none := by
  cases n <;> rfl

/-- Claim C3: `Endpoint::from_listener(id, addr)` succeeds — returning the
endpoint carrying exactly `id` and `addr` — iff `id.resource_type` is
`Local` and the adapter of `id.adapter_id` is not connection-oriented; in
every other case construction aborts. -/
theorem c3_from_listener_iff (co : Nat → Bool) (id : ResourceId) (addr : SockAddr) :
    (fromListener co id addr = some ⟨id, addr⟩ ↔
       (id.resourceType = ResourceType.localRes ∧ co id.adapterId = false))
  ∧ (fromListener co id addr = none ↔
       ¬(id.resourceType = ResourceType.localRes ∧ co id.adapterId = false)) := by
  refine ⟨?_, ?_⟩ <;> simp only [fromListener] <;> split <;> simp_all

/-- Claim C3, witness: a `Local` id of a non-connection-oriented adapter
yields the endpoint with that id and address. -/
theorem c3_from_listener_witness :
    fromListener (fun _ => false) ⟨2, ResourceType.localRes, 5⟩ ⟨9, 4⟩
      = some ⟨⟨2, ResourceType.localRes, 5⟩, ⟨9, 4⟩⟩ :=
  (c3_from_listener_iff (fun _ => false) ⟨2, ResourceType.localRes, 5⟩ ⟨9, 4⟩).1.mpr
    ⟨rfl, rfl⟩

/-- Claim C4, counterexample: an oversize payload queued while the
handshake is pending is accepted by `send` with `Sent`, yet after `receive`
completes the handshake the established socket has written nothing — the
flush loop discards the `Error::Capacity` status and the payload is
silently dropped, refuting that every queued payload is written to the
socket. -/
theorem c4_counterexample :
    send (RemoteState.handshake (some ⟨MidHandshake.completed ⟨[], [], []⟩, []⟩))
        (List.replicate (MAX_PAYLOAD_LEN + 1) 0)
      = some (SendStatus.sent,
          RemoteState.handshake (some ⟨MidHandshake.completed ⟨[], [], []⟩,
            [List.replicate (MAX_PAYLOAD_LEN + 1) 0]⟩))
  ∧ (receive (RemoteState.handshake (some ⟨MidHandshake.completed ⟨[], [], []⟩,
        [List.replicate (MAX_PAYLOAD_LEN + 1) 0]⟩))).state
      = RemoteState.webSocket ⟨[], [], []⟩ := by
  have hlen : (List.replicate (MAX_PAYLOAD_LEN + 1) (0 : Nat)).length
      > MAX_PAYLOAD_LEN := by
    rw [List.length_replicate]
    exact Nat.lt_succ_self _
  have hsend2 : sendBySocket ⟨[], [], []⟩ (List.replicate (MAX_PAYLOAD_LEN + 1) 0)
      = (SendStatus.maxPacketSizeExceeded
          (List.replicate (MAX_PAYLOAD_LEN + 1) (0 : Nat)).length MAX_PAYLOAD_LEN,
         (⟨[], [], []⟩ : WsSocket)) := by
    simp only [sendBySocket]
    rw [if_pos hlen]
  have hflush : flushPending ⟨[], [], []⟩ [List.replicate (MAX_PAYLOAD_LEN + 1) 0]
      = (⟨[], [], []⟩ : WsSocket) := by
    rw [flushPending, hsend2, flushPending]
  constructor
  · rfl
  · simp only [receive]
    rw [hflush]
    rfl

/-- Claim C4, amended: a `send` in the handshake state appends the payload
unchecked to the back of the pending queue and returns `Sent`; when
`receive` completes the handshake it passes the queued payloads to
`send_by_socket` front to back before handing over the `Established`
state, but discards the statuses, so a queued payload exceeding
`MAX_PAYLOAD_LEN` or one whose write fails fatally is silently dropped:
the payloads actually written are the `flushKept` subsequence of the
queue, in the original order — the whole queue exactly when every payload
is within the limit and the write path has no scripted failures. -/
theorem c4_amended_handshake_flush (ph : PendingHandshake) (d : Data)
    (sock : WsSocket) (ps : List Data) :
    send (RemoteState.handshake (some ph)) d
      = some (SendStatus.sent,
          RemoteState.handshake (some ⟨ph.midHandshake, ph.pendingMessages ++ [d]⟩))
  ∧ (flushPending sock ps).sent = sock.sent ++ flushKept sock.writeScript ps
  ∧ List.Sublist (flushKept sock.writeScript ps) ps
  ∧ (receive (RemoteState.handshake (some ⟨MidHandshake.completed sock, ps⟩))).state
      = RemoteState.webSocket
          { flushPending sock ps with
              reads := (receiveEst (flushPending sock ps).reads).restReads }
  ∧ (sock.writeScript = [] → (∀ x ∈ ps, x.length ≤ MAX_PAYLOAD_LEN) →
       flushKept sock.writeScript ps = ps) := by
  refine ⟨rfl, flushPending_sent ps sock, flushKept_sublist ps sock.writeScript,
    rfl, ?_⟩
  intro hw hs
  rw [hw]
  exact flushKept_all ps hs

/-- Claim C4, witness: two in-bound payloads queued before the handshake
are delivered to the established socket in order, and on a clean write path
the flush keeps the whole queue. -/
theorem c4_amended_witness :
    send (RemoteState.handshake (some ⟨MidHandshake.failed, []⟩)) [1]
      = some (SendStatus.sent, RemoteState.handshake (some ⟨MidHandshake.failed, [[1]]⟩))
  ∧ (receive (RemoteState.handshake
        (some ⟨MidHandshake.completed ⟨[], [], []⟩, [[1], [2]]⟩))).state
      = RemoteState.webSocket ⟨[], [], [[1], [2]]⟩
  ∧ flushKept [] [[1], [2]] = [[1], [2]] := by
  have h := c4_amended_handshake_flush ⟨MidHandshake.failed, []⟩ [1] ⟨[], [], []⟩
    [[1], [2]]
  refine ⟨h.1, ?_, h.2.2.2.2 rfl (by decide)⟩
  rw [h.2.2.2.1]
  rfl

/-- Claim C5: on an established WebSocket remote, sending a payload longer
than `MAX_PAYLOAD_LEN` returns `MaxPacketSizeExceeded(size, MAX_PAYLOAD_LEN)`
and leaves the socket state untouched (the resource is not removed), and a
subsequent send of a valid-size payload returns `Sent`. -/
theorem c5_oversize_rejected (sock : WsSocket) (big small : Data)
    (hbig : big.length > MAX_PAYLOAD_LEN) (hsmall : small.length ≤ MAX_PAYLOAD_LEN)
    (hw : sock.writeScript = []) :
    send (RemoteState.webSocket sock) big
      = some (SendStatus.maxPacketSizeExceeded big.length MAX_PAYLOAD_LEN,
              RemoteState.webSocket sock)
  ∧ send (RemoteState.webSocket sock) small
      = some (SendStatus.sent,
              RemoteState.webSocket { sock with sent := sock.sent ++ [small] }) := by
  obtain ⟨reads, ws, sentAcc⟩ := sock
  obtain rfl : ws = [] := hw
  constructor
  · simp [send, sendBySocket, hbig]
  · simp [send, sendBySocket, writeFlush, Nat.not_lt.mpr hsmall]

/-- Claim C5, witness: a payload of `MAX_PAYLOAD_LEN + 1` bytes is rejected
with `MaxPacketSizeExceeded(MAX_PAYLOAD_LEN + 1, MAX_PAYLOAD_LEN)` without
touching the socket, and a following one-byte send succeeds. -/
theorem c5_oversize_witness :
    send (RemoteState.webSocket ⟨[], [], []⟩)
        (List.replicate (MAX_PAYLOAD_LEN + 1) 0)
      = some (SendStatus.maxPacketSizeExceeded (MAX_PAYLOAD_LEN + 1) MAX_PAYLOAD_LEN,
              RemoteState.webSocket ⟨[], [], []⟩)
  ∧ send (RemoteState.webSocket ⟨[], [], []⟩) [7]
      = some (SendStatus.sent, RemoteState.webSocket ⟨[], [], [[7]]⟩) := by
  have h := c5_oversize_rejected ⟨[], [], []⟩ (List.replicate (MAX_PAYLOAD_LEN + 1) 0)
    [7] (by simp) (by simp [MAX_PAYLOAD_LEN]) rfl
  simpa using h

/-- Claim C6: `receive` surfaces I/O failures in exactly two forms —
`io_error_to_read_status` maps `WouldBlock` to `WaitNextEvent` and every
other kind (`ConnectionReset` included) to `Disconnected`; on an
established remote the drain loop's status is the classification of the
first terminating scripted event (binary payloads and non-close
messages are drained without surfacing anything); an interrupted handshake
resumption yields `WaitNextEvent` and a failed one `Disconnected`. -/
theorem c6_receive_status_classification :
    (∀ k, ioErrorToReadStatus k =
        if k = IOErrorKind.wouldBlock then ReadStatus.waitNextEvent
        else ReadStatus.disconnected)
  ∧ (∀ sock, (receive (RemoteState.webSocket sock)).status
        = firstStopStatus sock.reads)
  ∧ (∀ next ps,
        (receive (RemoteState.handshake (some ⟨MidHandshake.interrupted next, ps⟩))).status
          = some ReadStatus.waitNextEvent)
  ∧ (∀ ps, (receive (RemoteState.handshake (some ⟨MidHandshake.failed, ps⟩))).status
        = some ReadStatus.disconnected) := by
  refine ⟨?_, ?_, ?_, ?_⟩
  · intro k
    cases k <;> rfl
  · intro sock
    simpa [receive] using receiveEst_status sock.reads
  · intro next ps
    rfl
  · intro ps
    rfl

/-- Claim C7: the accept loop yields exactly the accepted streams whose
handshake did not immediately fail, each once and in order, drawn from the
scripted events before the first loop terminator (`WouldBlock` or a fatal
accept error); `Interrupted` results are retried and, like `WouldBlock`,
are never surfaced to the `accept_remote` callback. -/
theorem c7_accept_transients_not_surfaced (script : List AcceptEvent) :
    accept script
      = List.filterMap acceptYield (List.takeWhile (fun e => !isStop e) script) := by
  induction script with
  | nil => rfl
  | cons e rest ih =>
    cases e with
    | incoming addr hs =>
      cases hs <;> simp [accept, acceptYield, isStop, List.takeWhile, ih]
    | wouldBlock => rfl
    | interrupted => simp [accept, acceptYield, isStop, List.takeWhile, ih]
    | fatalErr => rfl

/-- Claim C9: in every `receive` call, the per-resource state lock is
released before the `process_data` callback is invoked — every callback in
the lock trace happens at lock depth zero. -/
theorem c9_callback_invoked_unlocked (st : RemoteState) :
    callbacksUnlocked 0 (receive st).trace = true := by
  cases st with
  | webSocket sock =>
    simpa [receive] using callbacksUnlocked_receiveEst sock.reads
  | handshake ph =>
    cases ph with
    | none => rfl
    | some p =>
      obtain ⟨mid, msgs⟩ := p
      cases mid with
      | completed sock =>
        simpa [receive, callbacksUnlocked] using
          callbacksUnlocked_receiveEst (flushPending sock msgs).reads
      | interrupted next => rfl
      | failed => rfl

/-- Claim C10: when resuming the server handshake in `receive` is
interrupted again, the call returns `WaitNextEvent` and the state stays in
`Handshake` with the pending-message queue preserved unchanged, same
payloads in the same order. -/
theorem c10_interrupted_handshake_preserves_queue (next : MidHandshake) (ps : List Data) :
    receive (RemoteState.handshake (some ⟨MidHandshake.interrupted next, ps⟩))
      = ⟨[LockAction.acquire, LockAction.release], some ReadStatus.waitNextEvent,
         RemoteState.handshake (some ⟨next, ps⟩)⟩ := rfl

end MessageIo
